import Mathlib

/-!
Verification of the resilient external-call orchestration layer of the
AI meeting summarizer backend: the error classifiers, the retry engines,
the timeout guard, the email-route validation, the rate-limit constants
and the AI-service metrics counters, shallowly embedded from
`backend/utils/ai-service.js`, `backend/utils/email-service.js` and the
backend server file.
-/

namespace MeetingSummarizer

/-- A JavaScript error value as the classifiers inspect it: its message
string, its optional `code` field (network or SMTP code) and its optional
numeric `status` field (HTTP status). -/
structure JsError where
  message : String
  code : Option String
  status : Option Nat
deriving DecidableEq, Repr

/-- Whether the list `pre` is a prefix of `l` (character-wise). -/
def listPrefix : List Char → List Char → Bool
  | [], _ => true
  | _ :: _, [] => false
  | a :: as, b :: bs => a = b && listPrefix as bs

/-- Whether the list `needle` occurs contiguously inside `hay`, the
semantics of JavaScript `String.prototype.includes`. -/
def listInfix (needle : List Char) : List Char → Bool
  | [] => needle.isEmpty
  | c :: cs => listPrefix needle (c :: cs) || listInfix needle cs

/-- `s.includes "timed out"` from the two classifiers. -/
def containsTimedOut (s : String) : Bool :=
  listInfix ("timed out".toList) s.toList

/-- Retryable HTTP status codes from `AIService._isRetryableError`. -/
def retryableStatusCodes : List Nat := [408, 429, 500, 502, 503, 504]

/-- `AIService._isRetryableError` (ai-service.js lines 164 to 184):
retryable when the message contains "timed out", the code is ECONNRESET
or ECONNREFUSED, or the status is one of 408, 429, 500, 502, 503, 504. -/
def isRetryableError (e : JsError) : Bool :=
  if containsTimedOut e.message then true
  else if e.code = some "ECONNRESET" || e.code = some "ECONNREFUSED" then true
  else if (match e.status with
           | some s => decide (s ≠ 0) && retryableStatusCodes.contains s
           | none => false) then true
  else false

/-- Retryable error codes from `EmailService._isRetryableEmailError`. -/
def retryableEmailErrorCodes : List String :=
  ["ECONNREFUSED", "ETIMEDOUT", "ECONNRESET", "ESOCKET",
   "EENVELOPE", "EMESSAGE", "421", "450", "451", "452"]

/-- `EmailService._isRetryableEmailError` (email-service.js lines 206 to
224): retryable when the code is in the retryable-code list or the
message contains "timed out"; the HTTP status field is never consulted. -/
def isRetryableEmailError (e : JsError) : Bool :=
  if (match e.code with
      | some c => retryableEmailErrorCodes.contains c
      | none => false) then true
  else if containsTimedOut e.message then true
  else false

/-- Outcome of a run of the retry loop: the settled result, the number of
times the wrapped operation was invoked, and the total backoff delay (in
milliseconds) slept across the run. -/
structure RetryOutcome (E A : Type) where
  result : Except E A
  invocations : Nat
  totalDelay : Nat

/-- The backoff sleep performed at the top of a loop iteration for the
given attempt index: nothing before attempt 0, and `base * 2 ^ attempt`
milliseconds before every later attempt (`Math.pow(2, attempt) * base`
in the source, with base 500 on the AI path and 1000 on the email path). -/
def attemptDelay (base attempt : Nat) : Nat :=
  if attempt = 0 then 0 else base * 2 ^ attempt

/-- One loop iteration of the retry engines of
`AIService._makeRequestWithRetry` and `EmailService._sendWithRetry`,
deterministically embedded: the operation `op` is a function of the
attempt index, `remaining` counts the retries still allowed
(`maxRetries - attempt`).  On failure, the loop continues exactly when
the error is retryable and a retry remains; otherwise the last error is
rethrown. -/
def retryGo (isR : E → Bool) (base : Nat) (op : Nat → Except E A) :
    Nat → Nat → RetryOutcome E A
  | attempt, 0 =>
    match op attempt with
    | Except.ok a => ⟨Except.ok a, 1, attemptDelay base attempt⟩
    | Except.error e => ⟨Except.error e, 1, attemptDelay base attempt⟩
  | attempt, Nat.succ r =>
    match op attempt with
    | Except.ok a => ⟨Except.ok a, 1, attemptDelay base attempt⟩
    | Except.error e =>
      if isR e then
        let rest := retryGo isR base op (attempt + 1) r
        ⟨rest.result, rest.invocations + 1,
         attemptDelay base attempt + rest.totalDelay⟩
      else ⟨Except.error e, 1, attemptDelay base attempt⟩

/-- `AIService._makeRequestWithRetry` (ai-service.js lines 121 to 156):
the retry loop runs attempts `0 .. maxRetries`, sleeping
`Math.pow(2, attempt) * 500` before each retry, and retries exactly the
errors `_isRetryableError` accepts. -/
def makeRequestWithRetry (maxRetries : Nat) (op : Nat → Except JsError A) :
    RetryOutcome JsError A :=
  retryGo isRetryableError 500 op 0 maxRetries

/-- `EmailService._sendWithRetry` (email-service.js lines 156 to 198):
the retry loop runs attempts `0 .. maxRetries`, sleeping
`Math.pow(2, attempt) * 1000` before each retry, and retries exactly the
errors `_isRetryableEmailError` accepts. -/
def sendWithRetry (maxRetries : Nat) (op : Nat → Except JsError A) :
    RetryOutcome JsError A :=
  retryGo isRetryableEmailError 1000 op 0 maxRetries

/-- `AIService` configuration with the constructor defaults of
ai-service.js lines 20 to 26: `maxRetries: 2, timeout: 30000`. -/
structure AiConfig where
  maxRetries : Nat := 2
  timeout : Nat := 30000
deriving DecidableEq, Repr

/-- The configuration an `AIService` built without overrides carries. -/
def aiDefaultConfig : AiConfig := {}

/-- The hard-coded 30000 ms timeout of the email send operation
(email-service.js lines 170 to 172). -/
def emailSendTimeoutMs : Nat := 30000

/-- Abstract settling behaviour of an asynchronous operation: it settles
successfully at time `t`, settles with a rejection at time `t`, or never
settles. -/
inductive OpBehavior (A : Type) where
  | settlesOk (t : Nat) (a : A)
  | settlesErr (t : Nat) (e : JsError)
  | neverSettles
deriving Repr

/-- Result of racing an operation against a timer: at which time the
race settled and with which outcome. -/
structure RaceResult (A : Type) where
  settledAt : Nat
  result : Except JsError A

/-- The timeout guard of both adapters (`Promise.race` of the operation
against a `setTimeout` rejection of `durationMs` milliseconds, with
rejection message `timeoutMsg`): whichever settles first determines the
outcome, and a timer firing at the same instant as the operation loses
the race to the operation already settled. -/
def withTimeout (timeoutMsg : String) (durationMs : Nat) :
    OpBehavior A → RaceResult A
  | OpBehavior.settlesOk t a =>
    if t ≤ durationMs then ⟨t, Except.ok a⟩
    else ⟨durationMs, Except.error ⟨timeoutMsg, none, none⟩⟩
  | OpBehavior.settlesErr t e =>
    if t ≤ durationMs then ⟨t, Except.error e⟩
    else ⟨durationMs, Except.error ⟨timeoutMsg, none, none⟩⟩
  | OpBehavior.neverSettles =>
    ⟨durationMs, Except.error ⟨timeoutMsg, none, none⟩⟩

/-- The timeout rejection message of the AI path
(ai-service.js line 135). -/
def aiTimeoutMessage : String := "API request timed out"

/-- The timeout rejection message of the email path
(email-service.js line 171). -/
def emailTimeoutMessage : String := "Email sending operation timed out"

/-- The provider response as `generateSummary` inspects it:
`response.choices[0]?.message?.content`, absent when any link of that
optional chain is missing. -/
structure AiResponse where
  content : Option String
deriving DecidableEq, Repr

/-- The summary-extraction step of `generateSummary` (ai-service.js
lines 84 to 88): `!summary` is true for a missing content field and for
the empty string, and raises the empty-response error. -/
def extractSummary (r : AiResponse) : Except String String :=
  match r.content with
  | none => Except.error "Empty response received from AI provider"
  | some s =>
    if s = "" then Except.error "Empty response received from AI provider"
    else Except.ok s

/-- `AIService.generateSummary` reduced to its settling behaviour
(ai-service.js lines 57 to 113): run the request through the retry
engine, extract and validate the summary, and wrap any caught error into
a fresh error whose message is prefixed with
"Failed to generate summary: ". -/
def generateSummary (maxRetries : Nat) (op : Nat → Except JsError AiResponse) :
    Except String String :=
  match (makeRequestWithRetry maxRetries op).result with
  | Except.error e =>
    Except.error ("Failed to generate summary: " ++ e.message)
  | Except.ok r =>
    match extractSummary r with
    | Except.error m => Except.error ("Failed to generate summary: " ++ m)
    | Except.ok s => Except.ok s

/-- The transport receipt (`info`) returned by a successful
`transporter.sendMail`. -/
structure SendResult where
  messageId : String
deriving DecidableEq, Repr

/-- `EmailService.sendSummaryEmail` reduced to its settling behaviour
(email-service.js lines 84 to 148), paired with the number of times the
transport send operation was invoked: the only input validation is that
`recipients` is a non-empty array and `summary` is non-empty (these
errors are thrown before the retry engine runs and are not wrapped);
otherwise the send runs through the retry engine and a terminal failure
is wrapped into a fresh error prefixed with "Email sending failed: ". -/
def sendSummaryEmail (maxRetries : Nat) (recipients : List String)
    (summary : String) (transport : Nat → Except JsError SendResult) :
    Except String SendResult × Nat :=
  if recipients.isEmpty then
    (Except.error "Recipients must be a non-empty array", 0)
  else if summary = "" then
    (Except.error "Summary content is required", 0)
  else
    let run := sendWithRetry maxRetries transport
    match run.result with
    | Except.error e =>
      (Except.error ("Email sending failed: " ++ e.message), run.invocations)
    | Except.ok r => (Except.ok r, run.invocations)

/-- A character the class `[^\s@]` of the route's email regex accepts:
neither whitespace nor an at sign. -/
def emailChunkChar (c : Char) : Bool :=
  !c.isWhitespace && c ≠ '@'

/-- Split a character list at its first at sign, returning the segments
before and after it, or nothing when no at sign occurs. -/
def splitAtSign : List Char → Option (List Char × List Char)
  | [] => none
  | c :: cs =>
    if c = '@' then some ([], cs)
    else
      match splitAtSign cs with
      | some (a, b) => some (c :: a, b)
      | none => none

/-- Whether a dot occurs at an inner position of the list (neither first
nor last), so that the list decomposes as `B ++ "." ++ C` with `B` and
`C` non-empty. -/
def hasInnerDot (l : List Char) : Bool :=
  ((l.drop 1).dropLast).contains '.'

/-- The route's recipient-syntax test, the regex
`^[^\s@]+@[^\s@]+\.[^\s@]+$` of the send-email handler: the string
splits as `A@rest` with `A` non-empty and free of whitespace and at
signs, and `rest` free of whitespace and at signs with a dot at an inner
position. -/
def emailRegexTest (s : String) : Bool :=
  match splitAtSign s.toList with
  | none => false
  | some (a, rest) =>
    !a.isEmpty && a.all emailChunkChar &&
    !rest.isEmpty && rest.all emailChunkChar && hasInnerDot rest

/-- Outcome of the `POST /api/send-email` route handler. -/
inductive RouteOutcome where
  | badRequest (msg : String)
  | serviceUnavailable
  | sent (r : Except String SendResult)
deriving Repr

/-- The validation pipeline of the `POST /api/send-email` handler for an
array-shaped `recipients` body field, paired with the number of
transport invocations it causes: missing subject or summary is rejected
first (an array is always truthy in JavaScript, so `!recipients` never
fires for it), then an unconfigured service answers 503, then any
syntactically invalid recipient is rejected with 400 before
`EmailService.sendSummaryEmail` is invoked. -/
def sendEmailRoute (serviceConfigured : Bool) (maxRetries : Nat)
    (recipients : List String) (subject summary : String)
    (transport : Nat → Except JsError SendResult) : RouteOutcome × Nat :=
  if subject = "" || summary = "" then
    (RouteOutcome.badRequest
      "Missing required fields: recipients, subject, and summary are required",
     0)
  else if !serviceConfigured then
    (RouteOutcome.serviceUnavailable, 0)
  else
    let invalid := recipients.filter (fun r => !emailRegexTest r)
    if !invalid.isEmpty then
      (RouteOutcome.badRequest
        ("Invalid email format: " ++ String.intercalate ", " invalid), 0)
    else
      let sent := sendSummaryEmail maxRetries recipients summary transport
      (RouteOutcome.sent sent.1, sent.2)

/-- A rate-limit policy: fixed window length in milliseconds and request
ceiling per window. -/
structure RateLimitPolicy where
  windowMs : Nat
  maxRequests : Nat
deriving DecidableEq, Repr

/-- The policy the `emailLimiter` middleware applies to
`POST /api/send-email` (server file: `windowMs: 60 * 60 * 1000`,
`max: 20`). -/
def emailLimiterPolicy : RateLimitPolicy :=
  ⟨60 * 60 * 1000, 20⟩

/-- The constant `EMAIL_RATE_LIMIT_WINDOW = 15 * 60 * 1000` defined for
metrics in the server file. -/
def EMAIL_RATE_LIMIT_WINDOW : Nat := 15 * 60 * 1000

/-- The constant `EMAIL_RATE_LIMIT_MAX = 10` defined for metrics in the
server file. -/
def EMAIL_RATE_LIMIT_MAX : Nat := 10

/-- The email rate-limit policy the `GET /api/health` handler reports
(`rateLimit.email` with `windowMs: EMAIL_RATE_LIMIT_WINDOW` and
`maxRequests: EMAIL_RATE_LIMIT_MAX`). -/
def healthReportedEmailRateLimit : RateLimitPolicy :=
  ⟨EMAIL_RATE_LIMIT_WINDOW, EMAIL_RATE_LIMIT_MAX⟩

/-- The integer usage counters of `AIService.metrics` (ai-service.js
lines 40 to 47); the floating-point `averageLatency` field is outside
this model. -/
structure AiMetrics where
  requestCount : Nat
  successCount : Nat
  failureCount : Nat
  totalTokensUsed : Nat
  requestsInProgress : Nat
deriving DecidableEq, Repr

/-- The all-zero metrics the `AIService` constructor installs. -/
def aiInitialMetrics : AiMetrics := ⟨0, 0, 0, 0, 0⟩

/-- The metric events a `generateSummary` call emits: entering the
method (`requestCount++; requestsInProgress++`), settling successfully
(`successCount++; totalTokensUsed += tokens` and the `finally`
decrement), or settling with a failure (`failureCount++` and the
`finally` decrement). -/
inductive AiEvent where
  | start
  | settleSuccess (tokens : Nat)
  | settleFailure
deriving DecidableEq, Repr

/-- The counter updates one metric event performs, exactly as
`generateSummary` performs them. -/
def stepMetrics (m : AiMetrics) : AiEvent → AiMetrics
  | AiEvent.start =>
    { m with requestCount := m.requestCount + 1,
             requestsInProgress := m.requestsInProgress + 1 }
  | AiEvent.settleSuccess tokens =>
    { m with successCount := m.successCount + 1,
             totalTokensUsed := m.totalTokensUsed + tokens,
             requestsInProgress := m.requestsInProgress - 1 }
  | AiEvent.settleFailure =>
    { m with failureCount := m.failureCount + 1,
             requestsInProgress := m.requestsInProgress - 1 }

/-- Replay a list of metric events from a starting state. -/
def runEvents (m : AiMetrics) : List AiEvent → AiMetrics
  | [] => m
  | e :: es => runEvents (stepMetrics m e) es

/-- A trace of metric events is well-formed from state `m` when every
settle event is matched by an open call: on the single-threaded event
loop a call settles only after it has started, so `requestsInProgress`
is positive whenever a settle fires. -/
def validFrom (m : AiMetrics) : List AiEvent → Bool
  | [] => true
  | e :: es =>
    (match e with
     | AiEvent.start => true
     | _ => decide (0 < m.requestsInProgress)) &&
    validFrom (stepMetrics m e) es

/-- Number of start events in a trace. -/
def startCount (es : List AiEvent) : Nat :=
  es.countP (fun e => match e with | AiEvent.start => true | _ => false)

/-- Number of settle events (success or failure) in a trace. -/
def settleCount (es : List AiEvent) : Nat :=
  es.countP (fun e => match e with | AiEvent.start => false | _ => true)

/-- Total backoff delay over `n` consecutive attempts starting at
attempt index `j`. -/
def delayFrom (base : Nat) : Nat → Nat → Nat
  | _, 0 => 0
  | j, Nat.succ n => attemptDelay base j + delayFrom base (j + 1) n

/-- A timeout rejection as the AI adapter produces it. -/
def timeoutError : JsError := ⟨"Request timed out", none, none⟩

/-- A non-retryable HTTP 404 failure. -/
def notFoundError : JsError := ⟨"boom", none, some 404⟩

/-- An operation that fails with a timeout on attempt 0 and succeeds on
every later attempt. -/
def opFailOnceThenOk : Nat → Except JsError AiResponse := fun i =>
  if i = 0 then Except.error timeoutError else Except.ok ⟨some "done"⟩

/-- An operation that fails with a timeout on attempts 0 and 1 and
succeeds on every later attempt. -/
def opFailTwiceThenOk : Nat → Except JsError AiResponse := fun i =>
  if i < 2 then Except.error timeoutError else Except.ok ⟨some "done"⟩

/-- An operation that fails with a timeout on every attempt. -/
def alwaysTimeoutOp : Nat → Except JsError AiResponse := fun _ =>
  Except.error timeoutError

/-- An operation that fails non-retryably (HTTP 404) on every attempt. -/
def nonRetryableOp : Nat → Except JsError AiResponse := fun _ =>
  Except.error notFoundError

/-- A transport whose send succeeds immediately. -/
def okTransport : Nat → Except JsError SendResult := fun _ =>
  Except.ok ⟨"msg-id-1"⟩

/-- Membership in the retryable status list, spelled out. -/
lemma mem_retryableStatusCodes {s : Nat} :
    s ∈ retryableStatusCodes ↔
      s = 408 ∨ s = 429 ∨ s = 500 ∨ s = 502 ∨ s = 503 ∨ s = 504 := by
  simp [retryableStatusCodes]

/-- Characterization of the AI-path retryability decision. -/
lemma isRetryableError_iff (e : JsError) :
    isRetryableError e = true ↔
      (containsTimedOut e.message = true ∨
       e.code = some "ECONNRESET" ∨ e.code = some "ECONNREFUSED" ∨
       (∃ s, e.status = some s ∧ s ≠ 0 ∧ s ∈ retryableStatusCodes)) := by
  obtain ⟨msg, code, status⟩ := e
  unfold isRetryableError
  rcases h1 : containsTimedOut msg <;> cases status <;>
    simp [h1, List.elem_eq_mem] <;> tauto

/-- Characterization of the email-path retryability decision. -/
lemma isRetryableEmailError_iff (e : JsError) :
    isRetryableEmailError e = true ↔
      ((∃ c, e.code = some c ∧ c ∈ retryableEmailErrorCodes) ∨
       containsTimedOut e.message = true) := by
  obtain ⟨msg, code, status⟩ := e
  unfold isRetryableEmailError
  rcases h1 : containsTimedOut msg <;> cases code <;>
    simp [h1, List.elem_eq_mem]

/-- Claim C1 counterexample: the claim's HTTP-status row fails on the
email-send path.  The error with message "boom", no code field and HTTP
status 429 has its status in the retryable set {408, 429, 500, 502, 503,
504}, yet `EmailService._isRetryableEmailError` decides it
non-retryable. -/
theorem C1_counterexample :
    429 ∈ retryableStatusCodes ∧
    isRetryableEmailError ⟨"boom", none, some 429⟩ = false := by
  constructor
  · decide
  · rfl

/-- Claim C1 (amended): the decision table holds on the AI path — a
message containing "timed out" is retryable on both paths; a status in
{408, 429, 500, 502, 503, 504} is retryable on the AI path; a 4xx status
outside {408, 429} is non-retryable on the AI path when no earlier row
matches; and any error matching no row — message without "timed out",
code (present or not) outside the codes the path checks, status (present
or not) outside the retryable set — is non-retryable: on the AI path
whenever the code is neither ECONNRESET nor ECONNREFUSED and no other
row matches, and on the email path whenever the code is outside its
code list and the message lacks "timed out", covering unlisted codes
such as EAUTH.  The email path, however, replaces the status rows by an
SMTP/network code list: any code in {ECONNREFUSED, ETIMEDOUT,
ECONNRESET, ESOCKET, EENVELOPE, EMESSAGE, 421, 450, 451, 452} is
retryable, and the HTTP status field is ignored entirely. -/
theorem C1_classifier_table :
    (∀ e : JsError, containsTimedOut e.message = true →
        isRetryableError e = true ∧ isRetryableEmailError e = true) ∧
    (∀ (e : JsError) (s : Nat), e.status = some s →
        s ∈ retryableStatusCodes → isRetryableError e = true) ∧
    (∀ (e : JsError) (s : Nat), e.status = some s →
        400 ≤ s → s ≤ 499 → s ≠ 408 → s ≠ 429 →
        containsTimedOut e.message = false →
        e.code ≠ some "ECONNRESET" → e.code ≠ some "ECONNREFUSED" →
        isRetryableError e = false) ∧
    (∀ e : JsError, containsTimedOut e.message = false →
        e.code ≠ some "ECONNRESET" → e.code ≠ some "ECONNREFUSED" →
        (∀ s, e.status = some s → s ∉ retryableStatusCodes) →
        isRetryableError e = false) ∧
    (∀ e : JsError, containsTimedOut e.message = false →
        (∀ c, e.code = some c → c ∉ retryableEmailErrorCodes) →
        isRetryableEmailError e = false) ∧
    (∀ (e : JsError) (c : String), e.code = some c →
        c ∈ retryableEmailErrorCodes → isRetryableEmailError e = true) ∧
    (∀ (e : JsError) (s : Option Nat),
        isRetryableEmailError ⟨e.message, e.code, s⟩ =
          isRetryableEmailError e) := by
  refine ⟨?_, ?_, ?_, ?_, ?_, ?_, ?_⟩
  · intro e h
    constructor
    · exact (isRetryableError_iff e).mpr (Or.inl h)
    · exact (isRetryableEmailError_iff e).mpr (Or.inr h)
  · intro e s hs hmem
    refine (isRetryableError_iff e).mpr (Or.inr (Or.inr (Or.inr ⟨s, hs, ?_, hmem⟩)))
    rcases mem_retryableStatusCodes.mp hmem with h | h | h | h | h | h <;> omega
  · intro e s hs h400 h499 h408 h429 hmsg hc1 hc2
    rw [Bool.eq_false_iff]
    intro htrue
    rcases (isRetryableError_iff e).mp htrue with h | h | h | ⟨t, ht, _, htmem⟩
    · rw [hmsg] at h; exact Bool.false_ne_true h
    · exact hc1 h
    · exact hc2 h
    · rw [hs] at ht
      cases Option.some.inj ht
      rcases mem_retryableStatusCodes.mp htmem with h | h | h | h | h | h <;> omega
  · intro e hmsg hc1 hc2 hstat
    rw [Bool.eq_false_iff]
    intro htrue
    rcases (isRetryableError_iff e).mp htrue with h | h | h | ⟨t, ht, _, htmem⟩
    · rw [hmsg] at h; exact Bool.false_ne_true h
    · exact hc1 h
    · exact hc2 h
    · exact hstat t ht htmem
  · intro e hmsg hcode
    rw [Bool.eq_false_iff]
    intro htrue
    rcases (isRetryableEmailError_iff e).mp htrue with ⟨c, hc, hcmem⟩ | h
    · exact hcode c hc hcmem
    · rw [hmsg] at h; exact Bool.false_ne_true h
  · intro e c hc hmem
    exact (isRetryableEmailError_iff e).mpr (Or.inl ⟨c, hc, hmem⟩)
  · intro e s
    obtain ⟨msg, code, status⟩ := e
    rfl

/-- Claim C1 witness: the amended table rows evaluated at concrete
errors — status 429 is retryable on the AI path, status 404 alone is
not, the unlisted code EAUTH is non-retryable on both paths, and SMTP
code EENVELOPE is retryable on the email path. -/
theorem C1_witness :
    isRetryableError ⟨"boom", none, some 429⟩ = true ∧
    isRetryableError ⟨"boom", none, some 404⟩ = false ∧
    isRetryableError ⟨"boom", some "EAUTH", none⟩ = false ∧
    isRetryableEmailError ⟨"boom", some "EAUTH", none⟩ = false ∧
    isRetryableEmailError ⟨"boom", some "EENVELOPE", none⟩ = true :=
  ⟨C1_classifier_table.2.1 ⟨"boom", none, some 429⟩ 429 rfl (by decide),
   C1_classifier_table.2.2.1 ⟨"boom", none, some 404⟩ 404 rfl (by decide)
     (by decide) (by decide) (by decide) (by decide)
     (by decide) (by decide),
   C1_classifier_table.2.2.2.1 ⟨"boom", some "EAUTH", none⟩ (by decide)
     (by decide) (by decide) (fun s hs => Option.noConfusion hs),
   C1_classifier_table.2.2.2.2.1 ⟨"boom", some "EAUTH", none⟩ (by decide)
     (fun c hc => by
       have h := Option.some.inj hc
       subst h
       decide),
   C1_classifier_table.2.2.2.2.2.1 ⟨"boom", some "EENVELOPE", none⟩
     "EENVELOPE" rfl (by decide)⟩

/-- Claim C2 counterexample: on the AI path the network code ETIMEDOUT
is not retryable — `AIService._isRetryableError` checks only ECONNRESET
and ECONNREFUSED, so the error with message "boom", code ETIMEDOUT and
no status is decided non-retryable, against the claim. -/
theorem C2_counterexample :
    isRetryableError ⟨"boom", some "ETIMEDOUT", none⟩ = false ∧
    isRetryableEmailError ⟨"boom", some "ETIMEDOUT", none⟩ = true := by
  constructor <;> rfl

/-- Claim C2 (amended): on the email-send path every error whose code is
one of ECONNREFUSED, ECONNRESET, ETIMEDOUT or ESOCKET is retryable; on
the AI-call path only ECONNREFUSED and ECONNRESET are retryable by code
— an error with code ETIMEDOUT or ESOCKET, a message not containing
"timed out" and no HTTP status is non-retryable on the AI path. -/
theorem C2_network_codes :
    (∀ (e : JsError) (c : String), e.code = some c →
        (c = "ECONNREFUSED" ∨ c = "ECONNRESET" ∨
         c = "ETIMEDOUT" ∨ c = "ESOCKET") →
        isRetryableEmailError e = true) ∧
    (∀ (e : JsError) (c : String), e.code = some c →
        (c = "ECONNRESET" ∨ c = "ECONNREFUSED") →
        isRetryableError e = true) ∧
    (∀ (msg : String) (c : String), containsTimedOut msg = false →
        (c = "ETIMEDOUT" ∨ c = "ESOCKET") →
        isRetryableError ⟨msg, some c, none⟩ = false) := by
  refine ⟨?_, ?_, ?_⟩
  · intro e c hc hmem
    refine (isRetryableEmailError_iff e).mpr (Or.inl ⟨c, hc, ?_⟩)
    rcases hmem with h | h | h | h <;> subst h <;> decide
  · intro e c hc hmem
    refine (isRetryableError_iff e).mpr ?_
    rcases hmem with h | h <;> subst h
    · exact Or.inr (Or.inl hc)
    · exact Or.inr (Or.inr (Or.inl hc))
  · intro msg c hmsg hmem
    rw [Bool.eq_false_iff]
    intro htrue
    rcases (isRetryableError_iff ⟨msg, some c, none⟩).mp htrue with
      h | h | h | ⟨t, ht, _, _⟩
    · rw [hmsg] at h; exact Bool.false_ne_true h
    · rcases hmem with hc | hc <;> simp_all
    · rcases hmem with hc | hc <;> simp_all
    · exact Option.noConfusion ht

/-- Claim C2 witness: the amended statement evaluated at concrete
errors with codes ESOCKET and ECONNREFUSED. -/
theorem C2_witness :
    isRetryableEmailError ⟨"boom", some "ESOCKET", none⟩ = true ∧
    isRetryableError ⟨"boom", some "ECONNREFUSED", none⟩ = true ∧
    isRetryableError ⟨"boom", some "ESOCKET", none⟩ = false :=
  ⟨C2_network_codes.1 ⟨"boom", some "ESOCKET", none⟩ "ESOCKET" rfl
     (by decide),
   C2_network_codes.2.1 ⟨"boom", some "ECONNREFUSED", none⟩ "ECONNREFUSED"
     rfl (by decide),
   C2_network_codes.2.2 "boom" "ESOCKET" (by decide) (by decide)⟩

/-- Claim C3: with `maxRetries = 2`, an operation that fails with a
retryable error on every attempt is invoked exactly 3 times (attempts 0,
1 and 2) and the error of the final attempt is the one surfaced to the
caller. -/
theorem C3_retry_exhaustion (isR : E → Bool) (base : Nat)
    (op : Nat → Except E A) (err : Nat → E)
    (hop : ∀ i, op i = Except.error (err i))
    (hr : ∀ i, isR (err i) = true) :
    (retryGo isR base op 0 2).result = Except.error (err 2) ∧
    (retryGo isR base op 0 2).invocations = 3 := by
  simp [retryGo, hop 0, hop 1, hop 2, hr 0, hr 1, hr 2]

/-- Claim C3 witness: the always-timing-out AI operation with
`maxRetries = 2` is invoked 3 times and surfaces the timeout error. -/
theorem C3_witness :
    (retryGo isRetryableError 500 alwaysTimeoutOp 0 2).result =
      Except.error timeoutError ∧
    (retryGo isRetryableError 500 alwaysTimeoutOp 0 2).invocations = 3 :=
  C3_retry_exhaustion isRetryableError 500 alwaysTimeoutOp
    (fun _ => timeoutError) (fun _ => rfl)
    (fun _ => (by decide : isRetryableError timeoutError = true))

/-- Claim C4: when the first attempt fails with a non-retryable error,
the retry loop stops after exactly 1 invocation, for every value of
`maxRetries`, sleeps no backoff delay, and surfaces that error. -/
theorem C4_nonretryable_single (isR : E → Bool) (base : Nat)
    (op : Nat → Except E A) (e : E) (maxRetries : Nat)
    (h1 : op 0 = Except.error e) (h2 : isR e = false) :
    retryGo isR base op 0 maxRetries = ⟨Except.error e, 1, 0⟩ := by
  cases maxRetries <;> simp [retryGo, h1, h2, attemptDelay]

/-- Claim C4 witness: the operation failing with HTTP 404 is invoked
once even with `maxRetries = 5`, with no delay slept. -/
theorem C4_witness :
    retryGo isRetryableError 500 nonRetryableOp 0 5 =
      ⟨Except.error notFoundError, 1, 0⟩ :=
  C4_nonretryable_single isRetryableError 500 nonRetryableOp
    notFoundError 5 rfl (by decide)

/-- The retry loop on a run that fails retryably until attempt `j + r`
succeeds, counted from attempt `j`: the success value is returned after
`r + 1` invocations with the backoff delays of attempts `j .. j + r`. -/
lemma retryGo_ok_run (isR : E → Bool) (base : Nat)
    (op : Nat → Except E A) (err : Nat → E) (a : A) :
    ∀ (r j : Nat),
      (∀ i, i < r → op (j + i) = Except.error (err (j + i))) →
      (∀ i, i < r → isR (err (j + i)) = true) →
      op (j + r) = Except.ok a →
      retryGo isR base op j r =
        ⟨Except.ok a, r + 1, delayFrom base j (r + 1)⟩ := by
  intro r
  induction r with
  | zero =>
    intro j _ _ hok
    rw [Nat.add_zero] at hok
    simp [retryGo, hok, delayFrom]
  | succ n ih =>
    intro j hfail hr hok
    have hj : op j = Except.error (err j) := by
      have := hfail 0 (Nat.succ_pos n)
      rwa [Nat.add_zero] at this
    have hrj : isR (err j) = true := by
      have := hr 0 (Nat.succ_pos n)
      rwa [Nat.add_zero] at this
    have ihj := ih (j + 1)
      (fun i hi => by
        have h := hfail (i + 1) (by omega)
        rwa [show j + (i + 1) = j + 1 + i by omega] at h)
      (fun i hi => by
        have h := hr (i + 1) (by omega)
        rwa [show j + (i + 1) = j + 1 + i by omega] at h)
      (by rwa [show j + (n + 1) = j + 1 + n by omega] at hok)
    simp [retryGo, hj, hrj, ihj, delayFrom]

/-- Closed form of the backoff delay sum from a positive starting
attempt. -/
lemma delayFrom_closed (base : Nat) :
    ∀ (n j : Nat), 1 ≤ j →
      delayFrom base j n = base * (2 ^ (j + n) - 2 ^ j) := by
  intro n
  induction n with
  | zero =>
    intro j _
    simp [delayFrom]
  | succ n ih =>
    intro j hj
    rw [delayFrom, ih (j + 1) (by omega), attemptDelay,
      if_neg (by omega : ¬ j = 0)]
    obtain ⟨q, hq⟩ : ∃ q, 2 ^ n = q + 1 :=
      ⟨2 ^ n - 1, by have := Nat.one_le_two_pow (n := n); omega⟩
    have e1 : 2 ^ (j + 1 + n) = 2 ^ j * (2 * (q + 1)) := by
      rw [pow_add, pow_add, hq]; ring
    have e2 : 2 ^ (j + 1) = 2 ^ j * 2 := by rw [pow_add]; ring
    have e3 : 2 ^ (j + (n + 1)) = 2 ^ j * (2 * (q + 1)) := by
      rw [pow_add, pow_add, hq]; ring
    rw [e1, e2, e3]
    have h4 : 2 ^ j * (2 * (q + 1)) - 2 ^ j * 2 = 2 ^ j * 2 * q := by
      have h : 2 ^ j * (2 * (q + 1)) = 2 ^ j * 2 * q + 2 ^ j * 2 := by ring
      rw [h, Nat.add_sub_cancel]
    have h5 : 2 ^ j * (2 * (q + 1)) - 2 ^ j = 2 ^ j * 2 * q + 2 ^ j := by
      have h : 2 ^ j * (2 * (q + 1)) = (2 ^ j * 2 * q + 2 ^ j) + 2 ^ j := by
        ring
      rw [h, Nat.add_sub_cancel]
    rw [h4, h5]
    ring

/-- The total backoff delay over attempts `0 .. k` in closed form:
nothing before attempt 0, then `base * 2 ^ i` before attempt `i`. -/
lemma delayFrom_zero (base k : Nat) :
    delayFrom base 0 (k + 1) = base * (2 ^ (k + 1) - 2) := by
  rw [delayFrom, attemptDelay, if_pos rfl, Nat.zero_add,
    delayFrom_closed base k 1 (Nat.le_refl 1), Nat.add_comm 1 k, pow_one]

/-- Claim C5 counterexample: the AI retry engine with `maxAttempts = 1`
on an operation that fails retryably once and then succeeds performs 2
invocations but sleeps a total backoff of 1000 ms, not the 500 ms the
claimed formula (sum of `500 * 2 ^ i` for `i = 0 .. k-1`) gives for
`k = 1`. -/
theorem C5_counterexample :
    (makeRequestWithRetry 1 opFailOnceThenOk).result =
      Except.ok ⟨some "done"⟩ ∧
    (makeRequestWithRetry 1 opFailOnceThenOk).invocations = 2 ∧
    (makeRequestWithRetry 1 opFailOnceThenOk).totalDelay = 1000 ∧
    (makeRequestWithRetry 1 opFailOnceThenOk).totalDelay ≠ 500 * 2 ^ 0 := by
  refine ⟨rfl, rfl, rfl, by decide⟩

/-- Claim C5 (amended): an operation that fails with a retryable error
exactly `k` times and then succeeds, run with `maxAttempts = k`, returns
the success value after exactly `k + 1` invocations, and the total
backoff delay slept is `base * (2 ^ (k + 1) - 2)`, the sum of
`base * 2 ^ i` for `i = 1 .. k` (1000 ms + 2000 ms + ... with base
500 ms on the AI path). -/
theorem C5_retry_until_success (isR : E → Bool) (base : Nat)
    (op : Nat → Except E A) (err : Nat → E) (a : A) (k : Nat)
    (hfail : ∀ i, i < k → op i = Except.error (err i))
    (hr : ∀ i, i < k → isR (err i) = true)
    (hok : op k = Except.ok a) :
    retryGo isR base op 0 k =
      ⟨Except.ok a, k + 1, base * (2 ^ (k + 1) - 2)⟩ := by
  have h := retryGo_ok_run isR base op err a k 0
    (fun i hi => by rw [Nat.zero_add]; exact hfail i hi)
    (fun i hi => by rw [Nat.zero_add]; exact hr i hi)
    (by rwa [Nat.zero_add])
  rw [h, delayFrom_zero]

/-- Claim C5 witness: the AI operation failing twice then succeeding,
with `maxAttempts = 2` and base 500 ms, succeeds after 3 invocations
having slept 3000 ms in total. -/
theorem C5_witness :
    retryGo isRetryableError 500 opFailTwiceThenOk 0 2 =
      ⟨Except.ok ⟨some "done"⟩, 3, 3000⟩ :=
  C5_retry_until_success isRetryableError 500 opFailTwiceThenOk
    (fun _ => timeoutError) ⟨some "done"⟩ 2
    (fun i hi => by simp [opFailTwiceThenOk, hi])
    (fun _ _ => (by decide : isRetryableError timeoutError = true)) rfl

/-- Claim C6 counterexample: the terminal failure does not propagate
unchanged.  With an operation that always fails with the non-retryable
error "boom" (HTTP 404), `generateSummary` rejects with a fresh error
whose message is "Failed to generate summary: boom", which differs from
the original message "boom". -/
theorem C6_counterexample :
    generateSummary 2 nonRetryableOp =
      Except.error "Failed to generate summary: boom" ∧
    notFoundError.message = "boom" ∧
    ("Failed to generate summary: boom" : String) ≠ "boom" := by
  exact ⟨rfl, rfl, by decide⟩

/-- Claim C6 (amended): a terminal failure is never silently swallowed —
whenever the retry engine surfaces an error, `generateSummary` rejects
with an error whose message is the original message prefixed with
"Failed to generate summary: ", and `sendSummaryEmail` (on validated
inputs) rejects with the original message prefixed with
"Email sending failed: ".  The original message is preserved as a
suffix, but the error object and its message are rewritten, not
identical to those of the failing attempt. -/
theorem C6_terminal_error_wrapped :
    (∀ (maxRetries : Nat) (op : Nat → Except JsError AiResponse)
        (e : JsError),
        (makeRequestWithRetry maxRetries op).result = Except.error e →
        generateSummary maxRetries op =
          Except.error ("Failed to generate summary: " ++ e.message)) ∧
    (∀ (maxRetries : Nat) (recipients : List String) (summary : String)
        (transport : Nat → Except JsError SendResult) (e : JsError),
        recipients ≠ [] → summary ≠ "" →
        (sendWithRetry maxRetries transport).result = Except.error e →
        (sendSummaryEmail maxRetries recipients summary transport).1 =
          Except.error ("Email sending failed: " ++ e.message)) := by
  constructor
  · intro maxRetries op e h
    simp [generateSummary, h]
  · intro maxRetries recipients summary transport e hrec hsum h
    simp [sendSummaryEmail, List.isEmpty_iff, hrec, hsum, h]

/-- Claim C6 witness: a transport failing with the non-retryable "boom"
error makes the email core reject with the wrapped message. -/
theorem C6_witness :
    (sendSummaryEmail 2 ["a@b.c"] "sum"
        (fun _ => Except.error notFoundError)).1 =
      Except.error ("Email sending failed: " ++ notFoundError.message) :=
  C6_terminal_error_wrapped.2 2 ["a@b.c"] "sum"
    (fun _ => Except.error notFoundError) notFoundError
    (by decide) (by decide) rfl

/-- Claim C7 counterexample: called directly with the recipient list
["not-an-email"] — syntactically invalid for the route's regex — the
email-send core `sendSummaryEmail` does not reject: it invokes the SMTP
transport (once, here with a transport that succeeds immediately) and
resolves. -/
theorem C7_counterexample :
    emailRegexTest "not-an-email" = false ∧
    (sendSummaryEmail 2 ["not-an-email"] "summary" okTransport).2 = 1 ∧
    (sendSummaryEmail 2 ["not-an-email"] "summary" okTransport).1 =
      Except.ok ⟨"msg-id-1"⟩ := by
  exact ⟨rfl, rfl, rfl⟩

/-- Claim C7 (amended): recipient-address syntax is validated by the
HTTP route handler, not by the email-send core.  For every request
through `POST /api/send-email` with subject and summary present, the
service configured and at least one syntactically invalid recipient, the
handler responds 400 Bad Request and the SMTP transport is invoked zero
times; the core `sendSummaryEmail` itself checks only that the
recipients list is non-empty and the summary present, and otherwise
always hands the send to the retry engine regardless of address
syntax. -/
theorem C7_route_validates_recipients :
    (∀ (maxRetries : Nat) (recipients : List String)
        (subject summary : String)
        (transport : Nat → Except JsError SendResult) (r : String),
        subject ≠ "" → summary ≠ "" →
        r ∈ recipients → emailRegexTest r = false →
        (sendEmailRoute true maxRetries recipients subject summary
            transport).2 = 0 ∧
        ∃ m, (sendEmailRoute true maxRetries recipients subject summary
            transport).1 = RouteOutcome.badRequest m) ∧
    (∀ (maxRetries : Nat) (recipients : List String) (summary : String)
        (transport : Nat → Except JsError SendResult),
        recipients ≠ [] → summary ≠ "" →
        (sendSummaryEmail maxRetries recipients summary transport).2 =
          (sendWithRetry maxRetries transport).invocations) := by
  constructor
  · intro maxRetries recipients subject summary transport r
      hsub hsum hmem hbad
    have hr : r ∈ recipients.filter (fun x => !emailRegexTest x) :=
      List.mem_filter.mpr ⟨hmem, by simp [hbad]⟩
    have hne : (recipients.filter (fun x => !emailRegexTest x)).isEmpty
        = false := by
      cases hfe : recipients.filter (fun x => !emailRegexTest x) with
      | nil => rw [hfe] at hr; exact absurd hr (List.not_mem_nil r)
      | cons a l => rfl
    simp [sendEmailRoute, hsub, hsum, hne]
  · intro maxRetries recipients summary transport hrec hsum
    simp only [sendSummaryEmail, List.isEmpty_iff]
    rw [if_neg (by simpa [List.isEmpty_iff] using hrec),
      if_neg (by simpa using hsum)]
    cases h : (sendWithRetry maxRetries transport).result <;> simp [h]

/-- Claim C7 witness: the route applied to the single invalid recipient
"not-an-email" with subject "s" and summary "m": 400 response, zero
transport invocations. -/
theorem C7_witness :
    (sendEmailRoute true 2 ["not-an-email"] "s" "m" okTransport).2 = 0 ∧
    ∃ m, (sendEmailRoute true 2 ["not-an-email"] "s" "m" okTransport).1 =
      RouteOutcome.badRequest m :=
  C7_route_validates_recipients.1 2 ["not-an-email"] "s" "m" okTransport
    "not-an-email" (by decide) (by decide) (by decide) (by decide)

/-- Claim C8: under the idealized timer semantics of the race (a
`setTimeout` of `durationMs` fires at exactly `durationMs`), an
operation that never settles makes the timeout guard settle at exactly
`durationMs` — 30000 ms by default on both the AI path
(`config.timeout` default) and the email path (hard-coded) — with a
rejection whose message contains "timed out" (hence classified
Timeout/retryable by both classifiers); and whichever of the operation
and the timer settles first determines the result. -/
theorem C8_timeout_guard :
    (aiDefaultConfig.timeout = 30000 ∧ emailSendTimeoutMs = 30000) ∧
    (∀ (A : Type),
        withTimeout aiTimeoutMessage aiDefaultConfig.timeout
            (OpBehavior.neverSettles : OpBehavior A) =
          ⟨30000, Except.error ⟨aiTimeoutMessage, none, none⟩⟩) ∧
    (∀ (A : Type),
        withTimeout emailTimeoutMessage emailSendTimeoutMs
            (OpBehavior.neverSettles : OpBehavior A) =
          ⟨30000, Except.error ⟨emailTimeoutMessage, none, none⟩⟩) ∧
    (isRetryableError ⟨aiTimeoutMessage, none, none⟩ = true ∧
     isRetryableEmailError ⟨emailTimeoutMessage, none, none⟩ = true) ∧
    (∀ (A : Type) (msg : String) (d t : Nat) (a : A), t ≤ d →
        withTimeout msg d (OpBehavior.settlesOk t a) =
          ⟨t, Except.ok a⟩) ∧
    (∀ (A : Type) (msg : String) (d t : Nat) (e : JsError), t ≤ d →
        withTimeout msg d (OpBehavior.settlesErr t e : OpBehavior A) =
          ⟨t, Except.error e⟩) := by
  refine ⟨⟨rfl, rfl⟩, fun A => rfl, fun A => rfl,
    ⟨by decide, by decide⟩, ?_, ?_⟩
  · intro A msg d t a h
    simp [withTimeout, h]
  · intro A msg d t e h
    simp [withTimeout, h]

/-- Claim C8 witness: an operation settling successfully at 5 ms beats
the 30000 ms timer and determines the result. -/
theorem C8_witness :
    withTimeout aiTimeoutMessage 30000
        (OpBehavior.settlesOk 5 (42 : Nat)) = ⟨5, Except.ok 42⟩ :=
  C8_timeout_guard.2.2.2.2.1 Nat aiTimeoutMessage 30000 5 42 (by decide)

/-- Claim C9 counterexample: the email rate-limit policy the
`emailLimiter` middleware applies and the one the health endpoint
reports are not equal. -/
theorem C9_counterexample :
    emailLimiterPolicy ≠ healthReportedEmailRateLimit := by
  decide

/-- Claim C9 (amended): the policy applied to the email-send route is a
fixed window of 1 hour (3600000 ms) with ceiling 20, while the health
endpoint reports a 15-minute (900000 ms) window with ceiling 10 — the
applied and the reported email rate-limit constants differ in both
fields. -/
theorem C9_rate_limit_values :
    emailLimiterPolicy = ⟨3600000, 20⟩ ∧
    healthReportedEmailRateLimit = ⟨900000, 10⟩ ∧
    emailLimiterPolicy.windowMs ≠ healthReportedEmailRateLimit.windowMs ∧
    emailLimiterPolicy.maxRequests ≠
      healthReportedEmailRateLimit.maxRequests := by
  exact ⟨rfl, rfl, by decide, by decide⟩

/-- The counter invariant is preserved along any well-formed event
trace. -/
lemma runEvents_invariant :
    ∀ (es : List AiEvent) (m : AiMetrics),
      validFrom m es = true →
      m.requestCount =
        m.successCount + m.failureCount + m.requestsInProgress →
      (runEvents m es).requestCount =
        (runEvents m es).successCount + (runEvents m es).failureCount +
          (runEvents m es).requestsInProgress := by
  intro es
  induction es with
  | nil => intro m _ h; exact h
  | cons e es ih =>
    intro m hv hinv
    cases e with
    | start =>
      simp only [validFrom, Bool.and_eq_true] at hv
      rw [runEvents]
      apply ih _ hv.2
      simp [stepMetrics]
      omega
    | settleSuccess tokens =>
      simp only [validFrom, Bool.and_eq_true] at hv
      have hpos : 0 < m.requestsInProgress := by
        have := hv.1; simpa using this
      rw [runEvents]
      apply ih _ hv.2
      simp [stepMetrics]
      omega
    | settleFailure =>
      simp only [validFrom, Bool.and_eq_true] at hv
      have hpos : 0 < m.requestsInProgress := by
        have := hv.1; simpa using this
      rw [runEvents]
      apply ih _ hv.2
      simp [stepMetrics]
      omega

/-- Along a well-formed trace, the in-progress gauge moves exactly by
starts minus settles. -/
lemma runEvents_inProgress :
    ∀ (es : List AiEvent) (m : AiMetrics),
      validFrom m es = true →
      (runEvents m es).requestsInProgress + settleCount es =
        m.requestsInProgress + startCount es := by
  intro es
  induction es with
  | nil => intro m _; simp [runEvents, startCount, settleCount]
  | cons e es ih =>
    intro m hv
    cases e with
    | start =>
      simp only [validFrom, Bool.and_eq_true] at hv
      rw [runEvents]
      have h := ih (stepMetrics m AiEvent.start) hv.2
      simp [startCount, settleCount, List.countP_cons, stepMetrics]
        at h ⊢
      omega
    | settleSuccess tokens =>
      simp only [validFrom, Bool.and_eq_true] at hv
      have hpos : 0 < m.requestsInProgress := by
        have := hv.1; simpa using this
      rw [runEvents]
      have h := ih (stepMetrics m (AiEvent.settleSuccess tokens)) hv.2
      simp [startCount, settleCount, List.countP_cons, stepMetrics]
        at h ⊢
      omega
    | settleFailure =>
      simp only [validFrom, Bool.and_eq_true] at hv
      have hpos : 0 < m.requestsInProgress := by
        have := hv.1; simpa using this
      rw [runEvents]
      have h := ih (stepMetrics m AiEvent.settleFailure) hv.2
      simp [startCount, settleCount, List.countP_cons, stepMetrics]
        at h ⊢
      omega

/-- Claim C10: along every well-formed trace of `generateSummary` metric
events from the freshly constructed service, `requestCount` equals
`successCount + failureCount + requestsInProgress`; once every started
call has settled, `requestsInProgress` is 0; and each settle event
increments exactly one of `successCount` and `failureCount`, leaving the
other unchanged. -/
theorem C10_metrics_invariant :
    (∀ es : List AiEvent, validFrom aiInitialMetrics es = true →
        (runEvents aiInitialMetrics es).requestCount =
          (runEvents aiInitialMetrics es).successCount +
            (runEvents aiInitialMetrics es).failureCount +
            (runEvents aiInitialMetrics es).requestsInProgress) ∧
    (∀ es : List AiEvent, validFrom aiInitialMetrics es = true →
        startCount es = settleCount es →
        (runEvents aiInitialMetrics es).requestsInProgress = 0) ∧
    (∀ (m : AiMetrics) (tokens : Nat),
        (stepMetrics m (AiEvent.settleSuccess tokens)).successCount =
          m.successCount + 1 ∧
        (stepMetrics m (AiEvent.settleSuccess tokens)).failureCount =
          m.failureCount) ∧
    (∀ m : AiMetrics,
        (stepMetrics m AiEvent.settleFailure).failureCount =
          m.failureCount + 1 ∧
        (stepMetrics m AiEvent.settleFailure).successCount =
          m.successCount) := by
  refine ⟨?_, ?_, ?_, ?_⟩
  · intro es hv
    exact runEvents_invariant es aiInitialMetrics hv rfl
  · intro es hv hbal
    have h := runEvents_inProgress es aiInitialMetrics hv
    have h0 : aiInitialMetrics.requestsInProgress = 0 := rfl
    omega
  · intro m tokens
    exact ⟨rfl, rfl⟩
  · intro m
    exact ⟨rfl, rfl⟩

/-- Claim C10 witness: the invariant evaluated after the well-formed
trace start, success, start, failure. -/
theorem C10_witness :
    (runEvents aiInitialMetrics
        [AiEvent.start, AiEvent.settleSuccess 5, AiEvent.start,
         AiEvent.settleFailure]).requestCount =
      (runEvents aiInitialMetrics
        [AiEvent.start, AiEvent.settleSuccess 5, AiEvent.start,
         AiEvent.settleFailure]).successCount +
      (runEvents aiInitialMetrics
        [AiEvent.start, AiEvent.settleSuccess 5, AiEvent.start,
         AiEvent.settleFailure]).failureCount +
      (runEvents aiInitialMetrics
        [AiEvent.start, AiEvent.settleSuccess 5, AiEvent.start,
         AiEvent.settleFailure]).requestsInProgress :=
  C10_metrics_invariant.1
    [AiEvent.start, AiEvent.settleSuccess 5, AiEvent.start,
     AiEvent.settleFailure] (by decide)

end MeetingSummarizer
